import Mathlib

/-!
Shallow embedding of the KRISHI-AI-INTELLIGENCE backend's two testable
computation units, translated from the TypeScript source:

* the soil-health scorer of the `POST /api/soil-analysis` handler in
  `src/mainroute.srver.ts` (lines 292-365), and
* the weather resolver `WeatherService.getCurrentWeather` /
  `getReliableWeatherData` / `getSeasonalDescription` in
  `src/weather-service.ts`.

JavaScript numbers are modelled as rationals; a request-body field that may
be absent (`undefined`) is an `Option ℚ`, and every JS comparison against
`undefined` yields `false`, as in JavaScript. Ambient effects of the weather
resolver (the upstream fetch outcome, the wall-clock month, the stream of
`Math.random()` draws) are passed as explicit arguments.
-/

namespace KrishiAI

/-- A JS numeric request field: a number, or `none` for `undefined`. -/
def JNum : Type := Option ℚ

/-- JS `v >= t` where `v` may be `undefined` (then the comparison is false). -/
def jge (v : JNum) (t : ℚ) : Bool :=
  match v with
  | none => false
  | some x => decide (t ≤ x)

/-- JS `v <= t` where `v` may be `undefined` (then the comparison is false). -/
def jle (v : JNum) (t : ℚ) : Bool :=
  match v with
  | none => false
  | some x => decide (x ≤ t)

/-- JS `v < t` where `v` may be `undefined` (then the comparison is false). -/
def jlt (v : JNum) (t : ℚ) : Bool :=
  match v with
  | none => false
  | some x => decide (x < t)

/-- JS `v > t` where `v` may be `undefined` (then the comparison is false). -/
def jgt (v : JNum) (t : ℚ) : Bool :=
  match v with
  | none => false
  | some x => decide (t < x)

/-- The fields destructured from the soil-analysis request body
(`src/mainroute.srver.ts` line 294); `region` is an opaque string unused by
the computation and is omitted. -/
structure SoilSample where
  pH : JNum
  nitrogen : JNum
  phosphorus : JNum
  potassium : JNum
  organicMatter : JNum
  moisture : JNum

/-- The `healthScore` accumulator after the five sequential band checks
(`src/mainroute.srver.ts` lines 297-317), before the `Math.min` cap. -/
def healthScoreRaw (s : SoilSample) : ℚ :=
  let h : ℚ := 0
  let h := if jge s.pH 6.0 && jle s.pH 7.5 then h + 20
           else if jge s.pH 5.5 && jle s.pH 8.0 then h + 15
           else h + 5
  let h := if jge s.nitrogen 150 && jle s.nitrogen 300 then h + 20
           else if jge s.nitrogen 100 then h + 10
           else h
  let h := if jge s.phosphorus 15 && jle s.phosphorus 40 then h + 20
           else if jge s.phosphorus 10 then h + 10
           else h
  let h := if jge s.potassium 120 && jle s.potassium 250 then h + 20
           else if jge s.potassium 80 then h + 10
           else h
  let h := if jge s.organicMatter 2.5 then h + 20
           else if jge s.organicMatter 1.5 then h + 15
           else h + 5
  h

/-- The `healthScore` field of the response:
`Math.min(healthScore, 100)` (`src/mainroute.srver.ts` line 320). -/
def healthScore (s : SoilSample) : ℚ :=
  min (healthScoreRaw s) 100

/-- Advisory string emitted when `nitrogen < 150`
(`src/mainroute.srver.ts` line 322). -/
def nitrogenMsg : String := "नाइट्रोजन की कमी - यूरिया या वर्मी कंपोस्ट डालें"

/-- Advisory string emitted when `phosphorus < 15` (line 323). -/
def phosphorusMsg : String := "फास्फोरस की कमी - SSP या DAP का उपयोग करें"

/-- Advisory string emitted when `potassium < 120` (line 324). -/
def potassiumMsg : String := "पोटाश की कमी - MOP या SOP डालें"

/-- Advisory string emitted when `pH < 6.0` (line 325). -/
def pHLowMsg : String := "मिट्टी में चूना डालें - एसिडिटी कम करने के लिए"

/-- Advisory string emitted when `pH > 8.0` (line 326). -/
def pHHighMsg : String := "जिप्सम का उपयोग करें - क्षारीयता कम करने के लिए"

/-- Advisory string emitted when `organicMatter < 2.0` (line 327). -/
def organicMatterMsg : String := "जैविक खाद बढ़ाएं - गोबर खाद या कंपोस्ट डालें"

/-- The unconditional final entry of the `recommendations` array (line 328). -/
def ureaMsg : String := "Apply urea (46-0-0) at 120-150 kg/hectare"

/-- The critical-condition alert string (line 350). -/
def criticalMsg : String := "मिट्टी की स्थिति खराब है - तुरंत सुधार की आवश्यकता"

/-- The `recommendations` field of the soil-analysis response
(`src/mainroute.srver.ts` lines 321-329): a 7-element array of
conditional entries (`cond ? msg : null`) run through `.filter(Boolean)`. -/
def recommendations (s : SoilSample) : List String :=
  ([ if jlt s.nitrogen 150 then some nitrogenMsg else none,
     if jlt s.phosphorus 15 then some phosphorusMsg else none,
     if jlt s.potassium 120 then some potassiumMsg else none,
     if jlt s.pH 6.0 then some pHLowMsg else none,
     if jgt s.pH 8.0 then some pHHighMsg else none,
     if jlt s.organicMatter 2.0 then some organicMatterMsg else none,
     some ureaMsg ] : List (Option String)).filterMap id

/-- The `alerts` field of the soil-analysis response
(`src/mainroute.srver.ts` line 350): keyed on the raw accumulator value. -/
def alerts (s : SoilSample) : List String :=
  if healthScoreRaw s < 50 then [criticalMsg] else []

/-- Spec-side pH contribution, written from the spec's band table
(pH 6.0-7.5 gives 20, else 5.5-8.0 gives 15, else 5). -/
def specPHContribution (v : JNum) : ℚ :=
  if jge v 6.0 && jle v 7.5 then 20
  else if jge v 5.5 && jle v 8.0 then 15
  else 5

/-- Spec-side nitrogen contribution (150-300 gives 20, else at least 100
gives 10, else 0). -/
def specNitrogenContribution (v : JNum) : ℚ :=
  if jge v 150 && jle v 300 then 20
  else if jge v 100 then 10
  else 0

/-- Spec-side phosphorus contribution (15-40 gives 20, else at least 10
gives 10, else 0). -/
def specPhosphorusContribution (v : JNum) : ℚ :=
  if jge v 15 && jle v 40 then 20
  else if jge v 10 then 10
  else 0

/-- Spec-side potassium contribution (120-250 gives 20, else at least 80
gives 10, else 0). -/
def specPotassiumContribution (v : JNum) : ℚ :=
  if jge v 120 && jle v 250 then 20
  else if jge v 80 then 10
  else 0

/-- Spec-side organic-matter contribution (at least 2.5 gives 20, else at
least 1.5 gives 15, else 5). -/
def specOrganicMatterContribution (v : JNum) : ℚ :=
  if jge v 2.5 then 20
  else if jge v 1.5 then 15
  else 5

/-- Spec-side health score: the five independently evaluated tiered
contributions, summed, then clamped to a maximum of 100. -/
def specHealthScore (s : SoilSample) : ℚ :=
  min (specPHContribution s.pH + specNitrogenContribution s.nitrogen +
       specPhosphorusContribution s.phosphorus +
       specPotassiumContribution s.potassium +
       specOrganicMatterContribution s.organicMatter) 100

lemma pH_accum (v : JNum) (h : ℚ) :
    (if jge v 6.0 && jle v 7.5 then h + 20
     else if jge v 5.5 && jle v 8.0 then h + 15
     else h + 5) = h + specPHContribution v := by
  unfold specPHContribution
  split_ifs <;> ring

lemma nitrogen_accum (v : JNum) (h : ℚ) :
    (if jge v 150 && jle v 300 then h + 20
     else if jge v 100 then h + 10
     else h) = h + specNitrogenContribution v := by
  unfold specNitrogenContribution
  split_ifs <;> ring

lemma phosphorus_accum (v : JNum) (h : ℚ) :
    (if jge v 15 && jle v 40 then h + 20
     else if jge v 10 then h + 10
     else h) = h + specPhosphorusContribution v := by
  unfold specPhosphorusContribution
  split_ifs <;> ring

lemma potassium_accum (v : JNum) (h : ℚ) :
    (if jge v 120 && jle v 250 then h + 20
     else if jge v 80 then h + 10
     else h) = h + specPotassiumContribution v := by
  unfold specPotassiumContribution
  split_ifs <;> ring

lemma organicMatter_accum (v : JNum) (h : ℚ) :
    (if jge v 2.5 then h + 20
     else if jge v 1.5 then h + 15
     else h + 5) = h + specOrganicMatterContribution v := by
  unfold specOrganicMatterContribution
  split_ifs <;> ring

lemma healthScoreRaw_eq_sum (s : SoilSample) :
    healthScoreRaw s =
      specPHContribution s.pH + specNitrogenContribution s.nitrogen +
      specPhosphorusContribution s.phosphorus +
      specPotassiumContribution s.potassium +
      specOrganicMatterContribution s.organicMatter := by
  unfold healthScoreRaw
  simp only [pH_accum, nitrogen_accum, phosphorus_accum, potassium_accum,
    organicMatter_accum]
  ring

/-- C1: for every soil sample, the health score returned by the
soil-analysis operation equals the sum of the five independently evaluated
tiered contributions (pH, nitrogen, phosphorus, potassium, organic matter,
with inclusive boundaries as in the spec's band table), clamped to a
maximum of 100. -/
theorem healthScore_eq_spec (s : SoilSample) :
    healthScore s = specHealthScore s := by
  unfold healthScore specHealthScore
  rw [healthScoreRaw_eq_sum]

lemma specPHContribution_bounds (v : JNum) :
    5 ≤ specPHContribution v ∧ specPHContribution v ≤ 20 := by
  unfold specPHContribution
  split_ifs <;> norm_num

lemma specNitrogenContribution_bounds (v : JNum) :
    0 ≤ specNitrogenContribution v ∧ specNitrogenContribution v ≤ 20 := by
  unfold specNitrogenContribution
  split_ifs <;> norm_num

lemma specPhosphorusContribution_bounds (v : JNum) :
    0 ≤ specPhosphorusContribution v ∧ specPhosphorusContribution v ≤ 20 := by
  unfold specPhosphorusContribution
  split_ifs <;> norm_num

lemma specPotassiumContribution_bounds (v : JNum) :
    0 ≤ specPotassiumContribution v ∧ specPotassiumContribution v ≤ 20 := by
  unfold specPotassiumContribution
  split_ifs <;> norm_num

lemma specOrganicMatterContribution_bounds (v : JNum) :
    5 ≤ specOrganicMatterContribution v ∧ specOrganicMatterContribution v ≤ 20 := by
  unfold specOrganicMatterContribution
  split_ifs <;> norm_num

lemma healthScoreRaw_bounds (s : SoilSample) :
    10 ≤ healthScoreRaw s ∧ healthScoreRaw s ≤ 100 := by
  rw [healthScoreRaw_eq_sum]
  have h1 := specPHContribution_bounds s.pH
  have h2 := specNitrogenContribution_bounds s.nitrogen
  have h3 := specPhosphorusContribution_bounds s.phosphorus
  have h4 := specPotassiumContribution_bounds s.potassium
  have h5 := specOrganicMatterContribution_bounds s.organicMatter
  constructor <;> linarith [h1.1, h1.2, h2.1, h2.2, h3.1, h3.2, h4.1, h4.2,
    h5.1, h5.2]

lemma healthScore_eq_raw (s : SoilSample) :
    healthScore s = healthScoreRaw s :=
  min_eq_left (healthScoreRaw_bounds s).2

/-- C7: for every soil sample, including samples with out-of-range or
missing numeric fields, the returned health score satisfies
0 ≤ healthScore ≤ 100. -/
theorem healthScore_bounded (s : SoilSample) :
    0 ≤ healthScore s ∧ healthScore s ≤ 100 := by
  have h := healthScoreRaw_bounds s
  unfold healthScore
  constructor
  · exact le_min (by linarith [h.1]) (by norm_num)
  · exact min_le_right _ _

/-- C10: for every soil sample, even one whose fields are missing or fail
every band, the returned health score is at least 10, because the pH and
organic-matter criteria each contribute a minimum of 5 on their fallback
branches; the score never reaches 0. -/
theorem healthScore_ge_ten (s : SoilSample) :
    10 ≤ healthScore s := by
  have h := healthScoreRaw_bounds s
  unfold healthScore
  exact le_min h.1 (by norm_num)

/-- C8: for every soil sample, the soil-analysis result carries the
critical-condition alert exactly when the computed health score is
below 50. -/
theorem critical_alert_iff_score_lt_fifty (s : SoilSample) :
    criticalMsg ∈ alerts s ↔ healthScore s < 50 := by
  rw [healthScore_eq_raw]
  unfold alerts
  by_cases h : healthScoreRaw s < 50
  · simp [h]
  · simp [h]

/-- Spec-side deficiency-flag list from the claim's words: exactly one
advisory identifier per triggered condition, in the fixed order nitrogen,
phosphorus, potassium, pH-low, pH-high, organic matter — and nothing else. -/
def specDeficiencyFlags (s : SoilSample) : List String :=
  (if jlt s.nitrogen 150 then [nitrogenMsg] else []) ++
  (if jlt s.phosphorus 15 then [phosphorusMsg] else []) ++
  (if jlt s.potassium 120 then [potassiumMsg] else []) ++
  (if jlt s.pH 6.0 then [pHLowMsg] else []) ++
  (if jgt s.pH 8.0 then [pHHighMsg] else []) ++
  (if jlt s.organicMatter 2.0 then [organicMatterMsg] else [])

/-- Spec-side flag list from the words of the spec's ordering property:
pH-low/high first, then nitrogen, phosphorus, potassium, organic matter,
with a critical entry appended last when the score is below 50. -/
def specOrderedFlags (s : SoilSample) : List String :=
  (if jlt s.pH 6.0 then [pHLowMsg] else []) ++
  (if jgt s.pH 8.0 then [pHHighMsg] else []) ++
  (if jlt s.nitrogen 150 then [nitrogenMsg] else []) ++
  (if jlt s.phosphorus 15 then [phosphorusMsg] else []) ++
  (if jlt s.potassium 120 then [potassiumMsg] else []) ++
  (if jlt s.organicMatter 2.0 then [organicMatterMsg] else []) ++
  (if healthScore s < 50 then [criticalMsg] else [])

/-- The spec's worked example of a fully optimal sample:
pH=6.8, N=200, P=25, K=150, organicMatter=3.0. -/
def perfectSample : SoilSample :=
  { pH := some 6.8, nitrogen := some 200, phosphorus := some 25,
    potassium := some 150, organicMatter := some 3.0, moisture := none }

/-- The spec's worked example of a poor sample:
pH=5.0, N=80, P=8, K=60, organicMatter=1.0. -/
def poorSample : SoilSample :=
  { pH := some 5.0, nitrogen := some 80, phosphorus := some 8,
    potassium := some 60, organicMatter := some 1.0, moisture := none }

lemma perfectSample_recommendations :
    recommendations perfectSample = [ureaMsg] := by
  norm_num [recommendations, perfectSample, jlt, jgt, List.filterMap_cons,
    List.filterMap_nil]

lemma perfectSample_specFlags :
    specDeficiencyFlags perfectSample = [] := by
  norm_num [specDeficiencyFlags, perfectSample, jlt, jgt]

lemma poorSample_raw : healthScoreRaw poorSample = 10 := by
  norm_num [healthScoreRaw, poorSample, jge, jle]

lemma poorSample_recommendations :
    recommendations poorSample =
      [nitrogenMsg, phosphorusMsg, potassiumMsg, pHLowMsg, organicMatterMsg,
       ureaMsg] := by
  norm_num [recommendations, poorSample, jlt, jgt, List.filterMap_cons,
    List.filterMap_nil]

lemma poorSample_specOrderedFlags :
    specOrderedFlags poorSample =
      [pHLowMsg, nitrogenMsg, phosphorusMsg, potassiumMsg, organicMatterMsg,
       criticalMsg] := by
  have h50 : healthScore poorSample < 50 := by
    rw [healthScore_eq_raw, poorSample_raw]
    norm_num
  have hpH : poorSample.pH = some 5.0 := rfl
  have hn : poorSample.nitrogen = some 80 := rfl
  have hp : poorSample.phosphorus = some 8 := rfl
  have hk : poorSample.potassium = some 60 := rfl
  have hom : poorSample.organicMatter = some 1.0 := rfl
  norm_num [specOrderedFlags, jlt, jgt, h50, hpH, hn, hp, hk, hom]

lemma poorSample_alerts : alerts poorSample = [criticalMsg] := by
  norm_num [alerts, poorSample_raw]

/-- C2 counterexample: on the optimal sample no deficiency condition
triggers, yet the produced list is not the claimed exactly-the-triggered-
flags list — the handler unconditionally appends a fertilizer entry. -/
theorem recommendations_perfect_ne_spec_flags :
    recommendations perfectSample ≠ specDeficiencyFlags perfectSample := by
  rw [perfectSample_recommendations, perfectSample_specFlags]
  exact List.cons_ne_nil _ _

/-- C2 (amended): for every soil sample the produced flag list is exactly
one advisory identifier per triggered condition, in the fixed order
nitrogen, phosphorus, potassium, pH-low, pH-high, organic matter, followed
by exactly one unconditional fertilizer-application entry. -/
theorem recommendations_eq_flags_append_urea (s : SoilSample) :
    recommendations s = specDeficiencyFlags s ++ [ureaMsg] := by
  unfold recommendations specDeficiencyFlags
  split_ifs <;> rfl

/-- C5 counterexample: on the spec's poor sample (all conditions
triggered, score 10), neither list the handler produces matches the
claimed pH-first ordering with a critical entry appended. -/
theorem poor_sample_flags_ne_claimed_order :
    recommendations poorSample ≠ specOrderedFlags poorSample ∧
    alerts poorSample ≠ specOrderedFlags poorSample := by
  rw [poorSample_recommendations, poorSample_specOrderedFlags,
    poorSample_alerts]
  constructor
  · intro h
    injection h with hhead _
    have : nitrogenMsg ≠ pHLowMsg := by decide
    exact this hhead
  · intro h
    have := congrArg List.length h
    simp at this

/-- C5 (amended): for every soil sample the flag list presents its entries
in the fixed order nitrogen, phosphorus, potassium, pH-low, pH-high,
organic matter, followed by the unconditional fertilizer entry — never
reordered; the critical-condition message is never part of that list, and
is instead returned in the separate alerts field exactly when the raw
score is below 50. -/
theorem recommendations_order_fixed (s : SoilSample) :
    (recommendations s).Sublist
      [nitrogenMsg, phosphorusMsg, potassiumMsg, pHLowMsg, pHHighMsg,
       organicMatterMsg, ureaMsg] ∧
    criticalMsg ∉ recommendations s ∧
    alerts s = (if healthScoreRaw s < 50 then [criticalMsg] else []) := by
  refine ⟨?_, ?_, rfl⟩
  · unfold recommendations
    split_ifs <;> decide
  · unfold recommendations
    split_ifs <;> decide

lemma specPHContribution_in_band (x : ℚ) (h1 : 6.0 ≤ x) (h2 : x ≤ 7.5) :
    specPHContribution (some x) = 20 := by
  simp [specPHContribution, jge, jle, h1, h2]

lemma specNitrogenContribution_in_band (x : ℚ) (h1 : 150 ≤ x)
    (h2 : x ≤ 300) : specNitrogenContribution (some x) = 20 := by
  simp [specNitrogenContribution, jge, jle, h1, h2]

lemma specPhosphorusContribution_in_band (x : ℚ) (h1 : 15 ≤ x)
    (h2 : x ≤ 40) : specPhosphorusContribution (some x) = 20 := by
  simp [specPhosphorusContribution, jge, jle, h1, h2]

lemma specPotassiumContribution_in_band (x : ℚ) (h1 : 120 ≤ x)
    (h2 : x ≤ 250) : specPotassiumContribution (some x) = 20 := by
  simp [specPotassiumContribution, jge, jle, h1, h2]

lemma specOrganicMatterContribution_in_band (x : ℚ) (h1 : 2.5 ≤ x) :
    specOrganicMatterContribution (some x) = 20 := by
  simp [specOrganicMatterContribution, jge, h1]

/-- C6 (amended): every sample with pH in [6.0,7.5], nitrogen in
[150,300], phosphorus in [15,40], potassium in [120,250] and organic
matter at least 2.5 scores exactly 100, and triggers no deficiency flag —
the produced list is exactly the single unconditional fertilizer entry
(not empty, as the original claim said). -/
theorem optimal_sample_score (s : SoilSample) (ph n p k om : ℚ)
    (hpH : s.pH = some ph) (h1 : 6.0 ≤ ph) (h2 : ph ≤ 7.5)
    (hn : s.nitrogen = some n) (h3 : 150 ≤ n) (h4 : n ≤ 300)
    (hp : s.phosphorus = some p) (h5 : 15 ≤ p) (h6 : p ≤ 40)
    (hk : s.potassium = some k) (h7 : 120 ≤ k) (h8 : k ≤ 250)
    (hom : s.organicMatter = some om) (h9 : 2.5 ≤ om) :
    healthScore s = 100 ∧ recommendations s = [ureaMsg] := by
  constructor
  · rw [healthScore_eq_raw, healthScoreRaw_eq_sum, hpH, hn, hp, hk, hom]
    rw [specPHContribution_in_band ph h1 h2,
      specNitrogenContribution_in_band n h3 h4,
      specPhosphorusContribution_in_band p h5 h6,
      specPotassiumContribution_in_band k h7 h8,
      specOrganicMatterContribution_in_band om h9]
    norm_num
  · have hph8 : ¬ ((8.0 : ℚ) < ph) := not_lt.mpr (h2.trans (by norm_num))
    have hom2 : ¬ (om < (2.0 : ℚ)) := not_lt.mpr (le_trans (by norm_num) h9)
    unfold recommendations
    rw [hpH, hn, hp, hk, hom]
    simp [jlt, jgt, not_lt.mpr h1, not_lt.mpr h3, not_lt.mpr h5,
      not_lt.mpr h7, hph8, hom2]

/-- C6 witness: the spec's example sample pH=6.8, N=200, P=25, K=150,
organicMatter=3.0 scores 100 and produces only the fertilizer entry. -/
theorem optimal_sample_score_witness :
    healthScore perfectSample = 100 ∧
    recommendations perfectSample = [ureaMsg] :=
  optimal_sample_score perfectSample 6.8 200 25 150 3.0
    rfl (by norm_num) (by norm_num) rfl (by norm_num) (by norm_num)
    rfl (by norm_num) (by norm_num) rfl (by norm_num) (by norm_num)
    rfl (by norm_num)

/-- C6 counterexample: on the spec's example sample the produced flag
list is not empty — it contains the unconditional fertilizer entry. -/
theorem perfect_sample_flags_nonempty :
    recommendations perfectSample ≠ [] := by
  rw [perfectSample_recommendations]
  exact List.cons_ne_nil _ _

/-- JS `Math.round`: round half towards positive infinity. -/
def jround (x : ℚ) : ℤ := Int.floor (x + 1/2)

/-- The provider fields `getCurrentWeather` reads out of a successful
upstream JSON body (`src/weather-service.ts` lines 44-54): `main.temp`,
`main.humidity`, `weather[0].description`, the optional `wind.speed`, the
optional `rain["1h"]`, `name`, `sys.country`, `weather[0].icon`. -/
structure UpstreamData where
  temp : ℚ
  humidity : ℚ
  description : String
  windSpeed : Option ℚ
  rain1h : Option ℚ
  name : String
  country : String
  icon : String

/-- A current-weather reading as returned by the service. -/
structure WeatherReading where
  temperature : ℚ
  humidity : ℚ
  description : String
  windSpeed : ℚ
  rainfall : ℚ
  city : String
  country : String
  icon : String
  source : String

/-- Outcome of the single upstream fetch: the promise rejected
(network error), or a response arrived with an ok flag, a
content-type-is-JSON flag, and a parsed body. -/
inductive FetchOutcome where
  | netError : FetchOutcome
  | response (ok : Bool) (jsonContentType : Bool) (data : UpstreamData) :
      FetchOutcome

/-- The `Math.random()` values the synthetic generator consumes, in the
order the source draws them: temperature variation, humidity, seasonal
description index, wind speed, the rainfall coin, the rainfall amount. -/
structure RandomDraws where
  tempDraw : ℚ
  humidityDraw : ℚ
  descDraw : ℚ
  windDraw : ℚ
  rainDraw : ℚ
  rainAmountDraw : ℚ

/-- The static per-city base-temperature table of
`getReliableWeatherData` (`src/weather-service.ts` lines 73-77). -/
def baseTemps : List (String × ℚ) :=
  [("mumbai", 29), ("delhi", 25), ("bangalore", 24), ("hyderabad", 28),
   ("pune", 26), ("kolkata", 27), ("chennai", 30), ("ahmedabad", 32),
   ("jaipur", 28), ("lucknow", 26), ("patna", 26), ("bhopal", 25),
   ("indore", 27), ("nagpur", 28), ("raipur", 26)]

/-- JS `String.prototype.toLowerCase`, as a structural map over the
characters. -/
def jsToLower (s : String) : String :=
  String.mk (s.data.map Char.toLower)

/-- JS `String.prototype.trim`: whitespace stripped from both ends. -/
def jsTrim (s : String) : String :=
  String.mk
    (((s.data.dropWhile Char.isWhitespace).reverse.dropWhile
      Char.isWhitespace).reverse)

/-- JS `location.charAt(0).toUpperCase() + location.slice(1)`. -/
def jsCapitalize (s : String) : String :=
  match s.data with
  | [] => ""
  | c :: cs => String.mk (c.toUpper :: cs)

/-- The fixed description lists of `getSeasonalDescription`, keyed by the
season band of the 1-based calendar month (`src/weather-service.ts`
lines 96-108): winter is Dec-Feb, monsoon Jun-Sep, post-monsoon Oct-Nov,
summer everything else. -/
def seasonDescriptions (month : ℤ) : List String :=
  if month ≥ 12 ∨ month ≤ 2 then ["clear sky", "few clouds", "mist", "haze"]
  else if 6 ≤ month ∧ month ≤ 9 then
    ["light rain", "moderate rain", "overcast clouds", "thunderstorm"]
  else if 10 ≤ month ∧ month ≤ 11 then
    ["clear sky", "few clouds", "partly cloudy"]
  else ["clear sky", "scattered clouds", "haze", "hot"]

/-- `getSeasonalDescription`: a uniformly random index into the season's
description list. -/
def getSeasonalDescription (month : ℤ) (r : ℚ) : String :=
  let l := seasonDescriptions month
  l.getD (Int.floor (r * l.length)).toNat ""

/-- `WeatherService.getReliableWeatherData` (`src/weather-service.ts`
lines 71-94): the synthetic fallback reading. The spec's `SyntheticFallback`
source tag is realized by the code as the literal string
"Climate Database". -/
def getReliableWeatherData (location : String) (month : ℤ)
    (d : RandomDraws) : WeatherReading :=
  let normalizedLocation := jsTrim (jsToLower location)
  let baseTemp := (baseTemps.lookup normalizedLocation).getD 27
  let variation : ℤ := Int.floor (d.tempDraw * 4) - 2
  { temperature := baseTemp + (variation : ℚ),
    humidity := 65 + ((Int.floor (d.humidityDraw * 15) : ℤ) : ℚ),
    description := getSeasonalDescription month d.descDraw,
    windSpeed := 8 + ((Int.floor (d.windDraw * 7) : ℤ) : ℚ),
    rainfall := if d.rainDraw < 0.25
                then ((Int.floor (d.rainAmountDraw * 3) : ℤ) : ℚ) else 0,
    city := jsCapitalize location,
    country := "IN",
    icon := "01d",
    source := "Climate Database" }

/-- `WeatherService.getCurrentWeather` (`src/weather-service.ts`
lines 21-69): with a configured credential and an ok JSON response, map
the provider fields (wind m/s to km/h by 3.6, absent wind or rain
defaulted to 0); on any other path, the synthetic fallback. -/
def getCurrentWeather (primaryApiKey : Option String) (location : String)
    (outcome : FetchOutcome) (month : ℤ) (d : RandomDraws) :
    WeatherReading :=
  match primaryApiKey with
  | none => getReliableWeatherData location month d
  | some _ =>
    match outcome with
    | .netError => getReliableWeatherData location month d
    | .response ok jsonContentType data =>
      if ok && jsonContentType then
        { temperature := (jround data.temp : ℚ),
          humidity := data.humidity,
          description := data.description,
          windSpeed := (jround ((data.windSpeed.getD 0) * 3.6) : ℚ),
          rainfall := data.rain1h.getD 0,
          city := data.name,
          country := data.country,
          icon := data.icon,
          source := "OpenWeatherMap" }
      else getReliableWeatherData location month d

/-- The failure cases of the upstream path: credential absent, network
error, non-2xx status, or non-JSON content type. -/
def upstreamFailed (primaryApiKey : Option String) (o : FetchOutcome) :
    Bool :=
  match primaryApiKey with
  | none => true
  | some _ =>
    match o with
    | .netError => true
    | .response ok jsonContentType _ => !(ok && jsonContentType)

/-- C3: for every location and every upstream failure (credential absent,
network error, non-2xx status, or non-JSON content type) the resolve
operation still returns a reading — the synthetic fallback, whose source
carries the fallback tag (the code literal "Climate Database" realizing
the spec's `SyntheticFallback`). -/
theorem resolve_falls_back_on_failure (primaryApiKey : Option String)
    (location : String) (o : FetchOutcome) (month : ℤ) (d : RandomDraws)
    (h : upstreamFailed primaryApiKey o = true) :
    getCurrentWeather primaryApiKey location o month d =
      getReliableWeatherData location month d ∧
    (getCurrentWeather primaryApiKey location o month d).source =
      "Climate Database" := by
  cases primaryApiKey with
  | none => exact ⟨rfl, rfl⟩
  | some k =>
    cases o with
    | netError => exact ⟨rfl, rfl⟩
    | response ok jsonContentType data =>
      have h' : ok = false ∨ jsonContentType = false := by
        simpa [upstreamFailed] using h
      have hb : (ok && jsonContentType) = false := by
        rcases h' with h' | h' <;> simp [h']
      have heq : getCurrentWeather (some k) location
          (.response ok jsonContentType data) month d =
          getReliableWeatherData location month d := by
        simp [getCurrentWeather, hb]
      refine ⟨heq, ?_⟩
      rw [heq]
      rfl

/-- C3 witness: with no credential and a network error, resolving
"mumbai" yields exactly the synthetic fallback reading. -/
theorem resolve_falls_back_on_failure_witness :
    getCurrentWeather none "mumbai" .netError 1 ⟨0, 0, 0, 0, 0, 0⟩ =
      getReliableWeatherData "mumbai" 1 ⟨0, 0, 0, 0, 0, 0⟩ ∧
    (getCurrentWeather none "mumbai" .netError 1
      ⟨0, 0, 0, 0, 0, 0⟩).source = "Climate Database" :=
  resolve_falls_back_on_failure none "mumbai" .netError 1
    ⟨0, 0, 0, 0, 0, 0⟩ rfl

/-- C9: calling resolve twice with the same location and no configured
credential yields readings that agree on city, country and source,
whatever the two fetch outcomes, months and random draws were. -/
theorem resolve_no_credential_stable_fields (location : String)
    (o₁ o₂ : FetchOutcome) (m₁ m₂ : ℤ) (d₁ d₂ : RandomDraws) :
    (getCurrentWeather none location o₁ m₁ d₁).city =
      (getCurrentWeather none location o₂ m₂ d₂).city ∧
    (getCurrentWeather none location o₁ m₁ d₁).country =
      (getCurrentWeather none location o₂ m₂ d₂).country ∧
    (getCurrentWeather none location o₁ m₁ d₁).source =
      (getCurrentWeather none location o₂ m₂ d₂).source :=
  ⟨rfl, rfl, rfl⟩

lemma floor_scaled_bounds (r : ℚ) (n : ℤ) (hn : 0 < n) (h0 : 0 ≤ r)
    (h1 : r < 1) : 0 ≤ Int.floor (r * n) ∧ Int.floor (r * n) < n := by
  constructor
  · exact Int.le_floor.mpr (by push_cast; positivity)
  · apply Int.floor_lt.mpr
    calc r * n < 1 * n := by
          apply mul_lt_mul_of_pos_right h1
          exact_mod_cast hn
    _ = n := one_mul _

lemma reliable_temperature (location : String) (month : ℤ)
    (d : RandomDraws) :
    (getReliableWeatherData location month d).temperature =
      ((baseTemps.lookup (jsTrim (jsToLower location))).getD 27) +
      ((Int.floor (d.tempDraw * 4) - 2 : ℤ) : ℚ) := rfl

lemma reliable_humidity (location : String) (month : ℤ)
    (d : RandomDraws) :
    (getReliableWeatherData location month d).humidity =
      65 + ((Int.floor (d.humidityDraw * 15) : ℤ) : ℚ) := rfl

lemma reliable_windSpeed (location : String) (month : ℤ)
    (d : RandomDraws) :
    (getReliableWeatherData location month d).windSpeed =
      8 + ((Int.floor (d.windDraw * 7) : ℤ) : ℚ) := rfl

lemma mumbai_lookup :
    ((baseTemps.lookup (jsTrim (jsToLower "mumbai"))).getD 27 : ℚ) = 29 := by
  decide

/-- C4 (actual behavior at the failing input): over every draw of the
random source, the synthetic reading for "mumbai" has temperature in
[27,30] — never the 31 the spec's base-29-plus-or-minus-2 perturbation
promises — humidity in [65,79] rather than [65,80], and wind speed in
[8,14] rather than [8,15]: the generator's floored scalings reach at most
base+1, 79 and 14. -/
theorem synthetic_ranges_mumbai (month : ℤ) (d : RandomDraws)
    (h0t : 0 ≤ d.tempDraw) (h1t : d.tempDraw < 1)
    (h0h : 0 ≤ d.humidityDraw) (h1h : d.humidityDraw < 1)
    (h0w : 0 ≤ d.windDraw) (h1w : d.windDraw < 1) :
    (27 ≤ (getReliableWeatherData "mumbai" month d).temperature ∧
      (getReliableWeatherData "mumbai" month d).temperature ≤ 30) ∧
    (65 ≤ (getReliableWeatherData "mumbai" month d).humidity ∧
      (getReliableWeatherData "mumbai" month d).humidity ≤ 79) ∧
    (8 ≤ (getReliableWeatherData "mumbai" month d).windSpeed ∧
      (getReliableWeatherData "mumbai" month d).windSpeed ≤ 14) := by
  obtain ⟨t0, t1⟩ := floor_scaled_bounds d.tempDraw 4 (by norm_num) h0t h1t
  obtain ⟨u0, u1⟩ :=
    floor_scaled_bounds d.humidityDraw 15 (by norm_num) h0h h1h
  obtain ⟨w0, w1⟩ := floor_scaled_bounds d.windDraw 7 (by norm_num) h0w h1w
  norm_cast at t0 t1 u0 u1 w0 w1
  have t0' : (0 : ℚ) ≤ ((Int.floor (d.tempDraw * 4) : ℤ) : ℚ) := by
    exact_mod_cast t0
  have t1' : ((Int.floor (d.tempDraw * 4) : ℤ) : ℚ) ≤ 3 := by
    exact_mod_cast (by omega : Int.floor (d.tempDraw * 4) ≤ 3)
  have u0' : (0 : ℚ) ≤ ((Int.floor (d.humidityDraw * 15) : ℤ) : ℚ) := by
    exact_mod_cast u0
  have u1' : ((Int.floor (d.humidityDraw * 15) : ℤ) : ℚ) ≤ 14 := by
    exact_mod_cast (by omega : Int.floor (d.humidityDraw * 15) ≤ 14)
  have w0' : (0 : ℚ) ≤ ((Int.floor (d.windDraw * 7) : ℤ) : ℚ) := by
    exact_mod_cast w0
  have w1' : ((Int.floor (d.windDraw * 7) : ℤ) : ℚ) ≤ 6 := by
    exact_mod_cast (by omega : Int.floor (d.windDraw * 7) ≤ 6)
  rw [reliable_temperature, reliable_humidity, reliable_windSpeed,
    mumbai_lookup]
  refine ⟨⟨?_, ?_⟩, ⟨?_, ?_⟩, ⟨?_, ?_⟩⟩ <;> push_cast <;> linarith

/-- C4 witness: at the all-zero draws the mumbai reading's fields sit
inside the proved ranges. -/
theorem synthetic_ranges_mumbai_witness :
    (27 ≤ (getReliableWeatherData "mumbai" 1 ⟨0, 0, 0, 0, 0, 0⟩).temperature ∧
      (getReliableWeatherData "mumbai" 1 ⟨0, 0, 0, 0, 0, 0⟩).temperature ≤ 30) ∧
    (65 ≤ (getReliableWeatherData "mumbai" 1 ⟨0, 0, 0, 0, 0, 0⟩).humidity ∧
      (getReliableWeatherData "mumbai" 1 ⟨0, 0, 0, 0, 0, 0⟩).humidity ≤ 79) ∧
    (8 ≤ (getReliableWeatherData "mumbai" 1 ⟨0, 0, 0, 0, 0, 0⟩).windSpeed ∧
      (getReliableWeatherData "mumbai" 1 ⟨0, 0, 0, 0, 0, 0⟩).windSpeed ≤ 14) :=
  synthetic_ranges_mumbai 1 ⟨0, 0, 0, 0, 0, 0⟩ (by norm_num) (by norm_num)
    (by norm_num) (by norm_num) (by norm_num) (by norm_num)

end KrishiAI
